import Mathlib

/-!
Shallow embedding of the `rendmp` command (Renesas digital multiphase
flashing tool, `src/cmd/rendmp/src/lib.rs`) and proofs about it.

Machine integers (`u8`, `u16`, `u32`, `usize`) are modelled as `Nat`,
with wrap-around made explicit at the places where the source can
overflow.  Fallible Rust code (`bail!`, `?`) is modelled with explicit
result types; Rust panics (out-of-bounds indexing, slice-range panics,
`panic!`) are modelled by a dedicated `panicked` outcome constructor.
-/

set_option maxRecDepth 10000

/-- Outcome of a fallible Rust computation: success, a `bail!`-style
diagnostic error, or a panic (out-of-bounds index, bad slice range,
explicit `panic!`). -/
inductive POut (ε : Type) (α : Type)
  | ok (a : α)
  | err (e : ε)
  | panicked
  deriving DecidableEq, Repr

/-- Per-bank programming status, one nibble each, from `RendmpBankStatus`
in the source (discriminants 0b1000, 0b0100, 0b0010, 0b0001, 0b0000). -/
inductive RendmpBankStatus
  | CRCMismatchOTP
  | CRCMismatchRAM
  | Reserved
  | BankWritten
  | BankUnaffected
  deriving DecidableEq, Repr

/-- Discriminant of each `RendmpBankStatus` variant as declared in the
source enum. -/
def RendmpBankStatus.val : RendmpBankStatus → Nat
  | .CRCMismatchOTP => 0b1000
  | .CRCMismatchRAM => 0b0100
  | .Reserved => 0b0010
  | .BankWritten => 0b0001
  | .BankUnaffected => 0b0000

/-- The derived `RendmpBankStatus::from_u8`: `some` exactly on the
declared discriminants. -/
def RendmpBankStatus.fromU8 : Nat → Option RendmpBankStatus
  | 0b1000 => some .CRCMismatchOTP
  | 0b0100 => some .CRCMismatchRAM
  | 0b0010 => some .Reserved
  | 0b0001 => some .BankWritten
  | 0b0000 => some .BankUnaffected
  | _ => none

/-- Error raised by `bank_status` when the raw status block is not
exactly 8 bytes (`bail!("short bank status")`). -/
inductive BankStatusErr
  | shortStatus
  deriving DecidableEq, Repr

/-- Translation of `RendmpDevice::bank_status`: for each status byte,
push the decode of the low nibble (`s & 0b1111`) and then of the high
nibble (`(s >> 4) & 0b1111`). -/
def bankStatus (status : List Nat) : Except BankStatusErr (List (Option RendmpBankStatus)) :=
  if status.length ≠ 8 then
    .error .shortStatus
  else
    .ok (status.flatMap fun s =>
      [RendmpBankStatus.fromU8 (s &&& 0b1111),
       RendmpBankStatus.fromU8 ((s >>> 4) &&& 0b1111)])

/-- Distinct failure classifications produced by
`RendmpDevice::check_programmer_status`. -/
inductive FlashFailure
  | crcMismatchRam
  | crcMismatchOtp
  | configurationsUnavailable
  | unknown (status : Nat)
  deriving DecidableEq, Repr

/-- Translation of `RendmpDevice::check_programmer_status` on the 16-bit
programmer status word. -/
def checkProgrammerStatus (status : Nat) : Except FlashFailure Unit :=
  if status &&& 0b000000001 = 1 then .ok ()
  else if status &&& 0b000010000 ≠ 0 then .error .crcMismatchRam
  else if status &&& 0b001000000 ≠ 0 then .error .crcMismatchOtp
  else if status &&& 0b100000000 ≠ 0 then .error .configurationsUnavailable
  else .error (.unknown status)

/-- Generation-2 Renesas devices, `RendmpGenTwo` in the source. -/
inductive RendmpGenTwo
  | ISL68220 | ISL68221 | ISL68222 | ISL68223 | ISL68224 | ISL68225
  | ISL68226 | ISL68227 | ISL68229 | ISL68233 | ISL68236 | ISL68239
  | ISL69222 | ISL69223 | ISL69224 | ISL69225 | ISL69227 | ISL69228
  | ISL69234 | ISL69236 | ISL69237 | ISL69238 | ISL69239 | ISL69242
  | ISL69243 | ISL69247 | ISL69248 | ISL69249 | ISL69254 | ISL69255
  | ISL69256 | ISL69259 | ISL69260 | ISL69267 | ISL69268 | ISL69269
  | RAA228000 | RAA228004 | RAA228006 | RAA229001 | RAA229004
  | RAA229022 | RAA229126
  deriving DecidableEq, Repr

/-- Discriminants of `RendmpGenTwo` as declared in the source. -/
def RendmpGenTwo.id : RendmpGenTwo → Nat
  | .ISL68220 => 0x63
  | .ISL68221 => 0x62
  | .ISL68222 => 0x61
  | .ISL68223 => 0x53
  | .ISL68224 => 0x52
  | .ISL68225 => 0x51
  | .ISL68226 => 0x50
  | .ISL68227 => 0x4F
  | .ISL68229 => 0x4E
  | .ISL68233 => 0x6B
  | .ISL68236 => 0x4D
  | .ISL68239 => 0x4B
  | .ISL69222 => 0x3E
  | .ISL69223 => 0x3D
  | .ISL69224 => 0x3C
  | .ISL69225 => 0x3B
  | .ISL69227 => 0x3A
  | .ISL69228 => 0x39
  | .ISL69234 => 0x43
  | .ISL69236 => 0x42
  | .ISL69237 => 0x66
  | .ISL69238 => 0x40
  | .ISL69239 => 0x41
  | .ISL69242 => 0x58
  | .ISL69243 => 0x59
  | .ISL69247 => 0x48
  | .ISL69248 => 0x47
  | .ISL69249 => 0x6D
  | .ISL69254 => 0x67
  | .ISL69255 => 0x38
  | .ISL69256 => 0x37
  | .ISL69259 => 0x46
  | .ISL69260 => 0x6E
  | .ISL69267 => 0x57
  | .ISL69268 => 0x3F
  | .ISL69269 => 0x55
  | .RAA228000 => 0x64
  | .RAA228004 => 0x65
  | .RAA228006 => 0x6C
  | .RAA229001 => 0x69
  | .RAA229004 => 0x6A
  | .RAA229022 => 0x6F
  | .RAA229126 => 0x7E

/-- All `RendmpGenTwo` variants, in declaration order. -/
def RendmpGenTwo.all : List RendmpGenTwo :=
  [.ISL68220, .ISL68221, .ISL68222, .ISL68223, .ISL68224, .ISL68225,
   .ISL68226, .ISL68227, .ISL68229, .ISL68233, .ISL68236, .ISL68239,
   .ISL69222, .ISL69223, .ISL69224, .ISL69225, .ISL69227, .ISL69228,
   .ISL69234, .ISL69236, .ISL69237, .ISL69238, .ISL69239, .ISL69242,
   .ISL69243, .ISL69247, .ISL69248, .ISL69249, .ISL69254, .ISL69255,
   .ISL69256, .ISL69259, .ISL69260, .ISL69267, .ISL69268, .ISL69269,
   .RAA228000, .RAA228004, .RAA228006, .RAA229001, .RAA229004,
   .RAA229022, .RAA229126]

/-- The derived `RendmpGenTwo::from_u8`: `some` exactly on the declared
discriminants. -/
def RendmpGenTwo.fromU8 : Nat → Option RendmpGenTwo
  | 0x63 => some .ISL68220
  | 0x62 => some .ISL68221
  | 0x61 => some .ISL68222
  | 0x53 => some .ISL68223
  | 0x52 => some .ISL68224
  | 0x51 => some .ISL68225
  | 0x50 => some .ISL68226
  | 0x4F => some .ISL68227
  | 0x4E => some .ISL68229
  | 0x6B => some .ISL68233
  | 0x4D => some .ISL68236
  | 0x4B => some .ISL68239
  | 0x3E => some .ISL69222
  | 0x3D => some .ISL69223
  | 0x3C => some .ISL69224
  | 0x3B => some .ISL69225
  | 0x3A => some .ISL69227
  | 0x39 => some .ISL69228
  | 0x43 => some .ISL69234
  | 0x42 => some .ISL69236
  | 0x66 => some .ISL69237
  | 0x40 => some .ISL69238
  | 0x41 => some .ISL69239
  | 0x58 => some .ISL69242
  | 0x59 => some .ISL69243
  | 0x48 => some .ISL69247
  | 0x47 => some .ISL69248
  | 0x6D => some .ISL69249
  | 0x67 => some .ISL69254
  | 0x38 => some .ISL69255
  | 0x37 => some .ISL69256
  | 0x46 => some .ISL69259
  | 0x6E => some .ISL69260
  | 0x57 => some .ISL69267
  | 0x3F => some .ISL69268
  | 0x55 => some .ISL69269
  | 0x64 => some .RAA228000
  | 0x65 => some .RAA228004
  | 0x6C => some .RAA228006
  | 0x69 => some .RAA229001
  | 0x6A => some .RAA229004
  | 0x6F => some .RAA229022
  | 0x7E => some .RAA229126
  | _ => none

/-- Generation-2.5 Renesas devices, `RendmpGenTwoFive` in the source. -/
inductive RendmpGenTwoFive
  | RAA228218 | RAA228227 | RAA228228 | RAA229618
  deriving DecidableEq, Repr

/-- Discriminants of `RendmpGenTwoFive` as declared in the source. -/
def RendmpGenTwoFive.id : RendmpGenTwoFive → Nat
  | .RAA228218 => 0x73
  | .RAA228227 => 0x75
  | .RAA228228 => 0x76
  | .RAA229618 => 0x99

/-- All `RendmpGenTwoFive` variants, in declaration order. -/
def RendmpGenTwoFive.all : List RendmpGenTwoFive :=
  [.RAA228218, .RAA228227, .RAA228228, .RAA229618]

/-- The derived `RendmpGenTwoFive::from_u8`. -/
def RendmpGenTwoFive.fromU8 : Nat → Option RendmpGenTwoFive
  | 0x73 => some .RAA228218
  | 0x75 => some .RAA228227
  | 0x76 => some .RAA228228
  | 0x99 => some .RAA229618
  | _ => none

/-- A resolved device: one of the two generations (`RendmpDevice`). -/
inductive RendmpDevice
  | RendmpGenTwo (d : RendmpGenTwo)
  | RendmpGenTwoFive (d : RendmpGenTwoFive)
  deriving DecidableEq, Repr

/-- Outcome of `RendmpDevice::from_id`: resolved, the `bail!("unknown
device id ...")` diagnostic, or the `panic!` taken when an id matches
both generation tables. -/
inductive ResolveResult
  | resolved (d : RendmpDevice)
  | unknownDevice (id : Nat)
  | panicked (d1 : RendmpGenTwo) (d2 : RendmpGenTwoFive)
  deriving DecidableEq, Repr

/-- Translation of `RendmpDevice::from_id`. -/
def RendmpDevice.fromId (id : Nat) : ResolveResult :=
  match RendmpGenTwo.fromU8 id, RendmpGenTwoFive.fromU8 id with
  | some d, none => .resolved (.RendmpGenTwo d)
  | none, some d => .resolved (.RendmpGenTwoFive d)
  | some d1, some d2 => .panicked d1 d2
  | none, none => .unknownDevice id

/-- Whether a `ResolveResult` is a successful resolution. -/
def ResolveResult.isResolved : ResolveResult → Bool
  | .resolved _ => true
  | _ => false

/-- Whether a `ResolveResult` is the double-match panic. -/
def ResolveResult.isPanic : ResolveResult → Bool
  | .panicked _ _ => true
  | _ => false

/-- The 8-bit ids enumerated in the two generation tables. -/
def enumeratedIds : List Nat :=
  RendmpGenTwo.all.map RendmpGenTwo.id ++ RendmpGenTwoFive.all.map RendmpGenTwoFive.id

/-- Expected total line count of a HEX file for a device
(`RendmpDevice::lines`, with `NUM_CONFIGS = 1`). -/
def RendmpDevice.lines : RendmpDevice → Nat
  | .RendmpGenTwo _ => 290 + 358 * 1
  | .RendmpGenTwoFive _ => 273 + 309 * 1

/-- Line offset in the file holding the CRC payload
(`RendmpDevice::crc_line`). -/
def RendmpDevice.crcLine : RendmpDevice → Nat
  | .RendmpGenTwo _ => 600
  | .RendmpGenTwoFive _ => 526

/-- Record kinds in the Renesas HEX file (`RendmpHexRecordKind`). -/
inductive RendmpHexRecordKind
  | Data
  | Header
  deriving DecidableEq, Repr

/-- The derived `RendmpHexRecordKind::from_u8` (discriminants 0 and 0x49). -/
def RendmpHexRecordKind.fromU8 : Nat → Option RendmpHexRecordKind
  | 0 => some .Data
  | 0x49 => some .Header
  | _ => none

/-- Diagnostic errors produced while parsing a HEX file
(`RendmpHex::from_file`); each constructor corresponds to one `bail!`
site and carries the values interpolated into its message. -/
inductive ParseErr
  | shortHexCol (line col : Nat)
  | badHex (line col : Nat)
  | shortLine (line : Nat)
  | badKind (kind line : Nat)
  | badLen (len line : Nat)
  | addrMismatch (imageAddr addr : Nat)
  | insufficientHeaders
  | badWordLen (isRev : Bool) (len : Nat)
  | unknownDevice (id : Nat)
  | lineCount (expected found : Nat)
  | badCrcLen (line len : Nat)
  deriving DecidableEq, Repr

/-- Value of one hexadecimal digit, if any. -/
def hexDigit (c : Char) : Option Nat :=
  if '0' ≤ c ∧ c ≤ '9' then some (c.toNat - '0'.toNat)
  else if 'a' ≤ c ∧ c ≤ 'f' then some (c.toNat - 'a'.toNat + 10)
  else if 'A' ≤ c ∧ c ≤ 'F' then some (c.toNat - 'A'.toNat + 10)
  else none

/-- Value of `u8::from_str_radix` on a two-character slice, radix 16
(a leading `+` is accepted by `from_str_radix`). -/
def pairVal (c1 c2 : Char) : Option Nat :=
  if c1 = '+' then hexDigit c2
  else
    match hexDigit c1, hexDigit c2 with
    | some a, some b => some (16 * a + b)
    | _, _ => none

/-- Translation of the per-line hex-decoding loop of
`RendmpHex::from_file`: walk the line two characters at a time
(`step_by(2)`), collecting byte values; `l` is the 1-based line number
and `i` the current 0-based byte offset, used for diagnostics. -/
def decodePairs (l : Nat) : List Char → Nat → POut ParseErr (List Nat)
  | [], _ => .ok []
  | [_], i => .err (.shortHexCol l (i + 1))
  | c1 :: c2 :: rest, i =>
    match pairVal c1 c2 with
    | none => .err (.badHex l (i + 1))
    | some v =>
      match decodePairs l rest (i + 2) with
      | .ok vs => .ok (v :: vs)
      | .err e => .err e
      | .panicked => .panicked

/-- Accumulated parser state: header payloads and data payloads, in file
order (the `headers` and `data` vectors of `from_file`). -/
structure ParseSt where
  headers : List (List Nat)
  data : List (List Nat)
  deriving DecidableEq, Repr

/-- Translation of the body of the per-line loop of
`RendmpHex::from_file` for one line: skip blank/comment lines; decode
hex pairs; check for at least two values; decode the record kind; check
the declared length; check the target address (`vals[2] >> 1`);
extract the payload `vals[3..reclen + 1]`.  The source indexes `vals[2]`
and slices `vals[3..reclen + 1]` without a bounds check, which panics
when fewer than three values were decoded or when `reclen + 1 < 3`. -/
def procLine (address l : Nat) (line : List Char) (st : ParseSt) : POut ParseErr ParseSt :=
  if line = [] ∨ line.head? = some '#' then .ok st
  else
    match decodePairs l line 0 with
    | .panicked => .panicked
    | .err e => .err e
    | .ok vals =>
      if vals.length < 2 then .err (.shortLine l)
      else
        match vals with
        | [] => .panicked
        | [_] => .panicked
        | v0 :: v1 :: rest =>
          match RendmpHexRecordKind.fromU8 v0 with
          | none => .err (.badKind v0 l)
          | some kind =>
            if v1 ≠ vals.length - 2 then .err (.badLen v1 l)
            else
              match rest with
              | [] => .panicked
              | v2 :: _ =>
                if v2 >>> 1 ≠ address then .err (.addrMismatch (v2 >>> 1) address)
                else if v1 + 1 < 3 then .panicked
                else
                  let payload := (vals.take (v1 + 1)).drop 3
                  match kind with
                  | .Header => .ok { st with headers := st.headers ++ [payload] }
                  | .Data => .ok { st with data := st.data ++ [payload] }

/-- Fold of `procLine` over the numbered lines of the file; `n` is the
0-based index of the first line of `ls` within the file. -/
def procLines (address : Nat) : List (List Char) → Nat → ParseSt → POut ParseErr ParseSt
  | [], _, st => .ok st
  | line :: rest, n, st =>
    match procLine address (n + 1) line st with
    | .ok st' => procLines address rest (n + 1) st'
    | .err e => .err e
    | .panicked => .panicked

/-- Translation of the nested `flip_word` helper: a 4-byte word stored
big-endian in the file is reversed; any other length is a diagnostic
error. -/
def flipWord (val : List Nat) (isRev : Bool) : POut ParseErr (List Nat) :=
  match val with
  | [a, b, c, d] => .ok [d, c, b, a]
  | _ => .err (.badWordLen isRev val.length)

/-- Rust `&v[1..]`: drops the first element, panicking when `v` is empty
(slice start 1 exceeds length 0). -/
def sliceFrom1 (v : List Nat) : POut ParseErr (List Nat) :=
  match v with
  | [] => .panicked
  | _ :: rest => .ok rest

/-- Little-endian `u32` from four bytes (`u32::from_le_bytes`). -/
def leWord (bs : List Nat) : Nat :=
  bs.getD 0 0 + bs.getD 1 0 * 0x100 + bs.getD 2 0 * 0x10000 + bs.getD 3 0 * 0x1000000

/-- The parsed HEX image (`RendmpHex`). -/
structure RendmpHex where
  device : RendmpDevice
  ic_device_id : List Nat
  ic_device_rev : List Nat
  crc : Nat
  data : List (List Nat)
  deriving DecidableEq, Repr

/-- The `usize` value of `crc_line - headers.len() - 2`: wrapping
subtraction modulo 2^64 (release mode); an underflow yields an index
far beyond the data vector, whose lookup then panics just as the
debug-mode overflow check would. -/
def crcIndex (crcLine nheaders : Nat) : Nat :=
  (((crcLine : Int) - nheaders - 2) % (2 ^ 64 : Int)).toNat

/-- Translation of the tail of `RendmpHex::from_file`, after the line
loop: header-count check, `IC_DEVICE_ID` flip and device resolution,
total line-count check, CRC record extraction and length check,
`IC_DEVICE_REV` flip, and image construction. -/
def finishParse (headers data : List (List Nat)) : POut ParseErr RendmpHex :=
  if headers.length < 2 then .err .insufficientHeaders
  else
    match sliceFrom1 (headers.getD 0 []) with
    | .panicked => .panicked
    | .err e => .err e
    | .ok h0tail =>
      match flipWord h0tail false with
      | .panicked => .panicked
      | .err e => .err e
      | .ok ic_device_id =>
        match RendmpDevice.fromId (ic_device_id.getD 1 0) with
        | .panicked _ _ => .panicked
        | .unknownDevice id => .err (.unknownDevice id)
        | .resolved device =>
          if headers.length + data.length ≠ device.lines then
            .err (.lineCount device.lines (headers.length + data.length))
          else
            match data.get? (crcIndex device.crcLine headers.length) with
            | none => .panicked
            | some rec0 =>
              match sliceFrom1 rec0 with
              | .panicked => .panicked
              | .err e => .err e
              | .ok crc =>
                if crc.length ≠ 4 then .err (.badCrcLen device.crcLine crc.length)
                else
                  match sliceFrom1 (headers.getD 1 []) with
                  | .panicked => .panicked
                  | .err e => .err e
                  | .ok h1tail =>
                    match flipWord h1tail true with
                    | .panicked => .panicked
                    | .err e => .err e
                    | .ok ic_device_rev =>
                      .ok { device, ic_device_id, ic_device_rev,
                            crc := leWord crc, data }

/-- Translation of `RendmpHex::from_file`: the file is given as its list
of lines (each a list of characters) together with the expected target
address. -/
def RendmpHex.fromFile (lines : List (List Char)) (address : Nat) : POut ParseErr RendmpHex :=
  match procLines address lines 0 ⟨[], []⟩ with
  | .ok st => finishParse st.headers st.data
  | .err e => .err e
  | .panicked => .panicked

/-- One pass of the chunked write loop in `rendmp`: for `i` in
`start..start + nwrites` (with `nwrites = 32`), the record at index `i`
is written when `i < max`; then `start` advances by `nwrites` and the
loop exits when `start >= max`.  Returns the indices written, in
order. -/
def writeLoop (start max : Nat) : List Nat :=
  let batch := (List.range' start 32).filter (fun i => i < max)
  if max ≤ start + 32 then batch
  else batch ++ writeLoop (start + 32) max
termination_by max - start
decreasing_by omega

/-- Data-record indices transmitted by the write phase: dry-run uses
`(max, start) = (len - 1, 1)`, a normal flash `(len, 0)` (`len` is the
number of parsed data records, which is at least 1 for any parsed
image). -/
def writeIndices (dryrun : Bool) (len : Nat) : List Nat :=
  let p := if dryrun then (len - 1, 1) else (len, 0)
  writeLoop p.2 p.1

/-- Outcome of the flash path from the CRC preflight check onward
(`rendmp`, after the slot checks): stop successfully under `--check`
on a CRC match; abort demanding `--force` on a match; abort on a
mismatch under `--check`; otherwise proceed to transmit data records. -/
inductive FlashPlan
  | stopOkMatch (crc : Nat)
  | failMatchNeedForce (crc : Nat)
  | failCheckMismatch (imageCrc deviceCrc : Nat)
  | write (indices : List Nat)
  deriving DecidableEq, Repr

/-- Translation of the CRC gating logic of `rendmp` (`if crc == hex.crc
{ ... } else if subargs.check { ... }`) followed by the write phase;
`deviceCrc` is the CRC read from the device, `imageCrc` the CRC of the
parsed image, `len` its number of data records. -/
def flashPlan (imageCrc deviceCrc : Nat) (check force dryrun : Bool) (len : Nat) : FlashPlan :=
  if deviceCrc = imageCrc then
    if check then .stopOkMatch deviceCrc
    else if !force then .failMatchNeedForce deviceCrc
    else .write (writeIndices dryrun len)
  else if check then .failCheckMismatch imageCrc deviceCrc
  else .write (writeIndices dryrun len)

/-- Write operations issued by a `FlashPlan` (none unless the plan
reaches the write phase). -/
def FlashPlan.writesIssued : FlashPlan → List Nat
  | .write l => l
  | _ => []

/-- Whether a `FlashPlan` goes on to the verify polling phase (only the
write phase does; every abort returns first). -/
def FlashPlan.entersVerify : FlashPlan → Bool
  | .write _ => true
  | _ => false

/-- One iteration's worth of input to the verify polling loop: the
16-bit programmer status word, the raw 8-byte bank status block, and the
wall-clock time in milliseconds elapsed since entering the loop, as
sampled by this iteration's deadline check. -/
structure VerifyPoll where
  status : Nat
  banks : List Nat
  elapsedMs : Nat
  deriving DecidableEq, Repr

/-- Result of the verify polling loop. -/
inductive VerifyResult
  | success
  | bankShort
  | bankInvalid (ndx : Nat)
  | failed (e : FlashFailure)
  | outOfPolls
  deriving DecidableEq, Repr

/-- Translation of the verify polling loop of `rendmp`: each iteration
reads programmer status and bank status, decodes the bank block
(bailing on a short block or on any undecodable nibble), then classifies
the programmer status word; success breaks out of the loop, and a
classified failure is returned once the 2-second deadline has passed,
else the loop sleeps 100ms and retries.  Device reads and the monotonic
clock are modelled as the input list of polls, one entry per iteration
actually performed; `outOfPolls` marks the model running out of supplied
polls, which has no counterpart in the source (the device can always be
read again). -/
def verifyLoop : List VerifyPoll → VerifyResult
  | [] => .outOfPolls
  | p :: rest =>
    match bankStatus p.banks with
    | .error .shortStatus => .bankShort
    | .ok banks =>
      match banks.findIdx? (fun b => b = none) with
      | some ndx => .bankInvalid ndx
      | none =>
        match checkProgrammerStatus p.status with
        | .ok _ => .success
        | .error e => if 2000 < p.elapsedMs then .failed e else verifyLoop rest

/-- Successful bank decode, as an `Option`. -/
def bankOk? (status : List Nat) : Option (List (Option RendmpBankStatus)) :=
  match bankStatus status with
  | .ok r => some r
  | .error _ => none

/-- Parsed image of a parse outcome, as an `Option`. -/
def imageOf : POut ParseErr RendmpHex → Option RendmpHex
  | .ok img => some img
  | _ => none

/-- Placeholder image used as the `Option.getD` default in closed
instantiations. -/
def emptyHex : RendmpHex :=
  { device := .RendmpGenTwo .ISL68220, ic_device_id := [], ic_device_rev := [],
    crc := 0, data := [] }

/-- First header line of the test file: an `IC_DEVICE_ID` header record
(kind 0x49, length 7, address byte 0x40, payload `00 00 00 73 00`,
checksum 0), naming device id 0x73 (RAA228218, generation 2.5). -/
def testHdr0 : List Char := "490740000000730000".toList

/-- Second header line of the test file: the `IC_DEVICE_REV` record. -/
def testHdr1 : List Char := "490740000000000000".toList

/-- A minimal filler header record (kind 0x49, length 2, empty payload). -/
def testShortHdr : List Char := "49024000".toList

/-- The CRC data record of the test file: payload `aa 78 56 34 12`, so
the embedded CRC is 0x12345678 (bytes 1..5 little-endian). -/
def testCrcData : List Char := "000740aa7856341200".toList

/-- A minimal filler data record (kind 0, length 2, empty payload). -/
def testShortData : List Char := "00024000".toList

/-- A complete, well-formed generation-2.5 HEX file for target address
0x20: 524 header records and 58 data records (582 lines, as
`RendmpDevice::lines` requires), with the CRC record at data index
`crc_line - headers.len() - 2 = 526 - 524 - 2 = 0`. -/
def testFile : List (List Char) :=
  [testHdr0, testHdr1] ++ List.replicate 522 testShortHdr
    ++ [testCrcData] ++ List.replicate 57 testShortData

/-- A two-line file whose first line is not hexadecimal and whose second
line is a well-formed record carrying address byte 0x40 (target address
0x20). -/
def testBadThenMismatch : List (List Char) :=
  ["zz".toList, "00024000".toList]

/-- A single-line file whose line decodes to exactly two bytes: record
kind 0 (data) and declared length 0. -/
def testTwoByteLine : List (List Char) :=
  ["0000".toList]

/-- Whether a raw bank block decodes without a short-status error and
with no undecodable nibble (the conditions under which the verify loop
does not bail out on bank status). -/
def banksClean (banks : List Nat) : Bool :=
  match bankStatus banks with
  | .error _ => false
  | .ok bs =>
    match bs.findIdx? (fun b => b = none) with
    | some _ => false
    | none => true

/-- Whether a programmer status word classifies as a failure. -/
def statusFailed (s : Nat) : Bool :=
  match checkProgrammerStatus s with
  | .ok _ => false
  | .error _ => true

/-- The stored payload of the data record holding the CRC, for a
successful parse: record index `crc_line - headers.len() - 2`, where the
header count is recovered as `device.lines - data.length` (their sum is
checked against `device.lines`). -/
def crcRecordOf (r : POut ParseErr RendmpHex) : List Nat :=
  match r with
  | .ok img =>
    img.data.getD
      (img.device.crcLine - (img.device.lines - img.data.length) - 2) []
  | _ => []

/-- The image parsed from the 582-line test file (with `emptyHex` as the
unreachable default). -/
def testImage : RendmpHex :=
  (imageOf (RendmpHex.fromFile testFile 0x20)).getD emptyHex

/-- A bitwise-and with a power of two is nonzero exactly when the
corresponding bit is set. -/
theorem land_two_pow_ne_zero (s i : Nat) : s &&& 2 ^ i ≠ 0 ↔ s.testBit i = true := by
  rw [Nat.and_two_pow]
  cases h : s.testBit i
  · simp
  · simp only [Bool.toNat_true, one_mul, ne_eq, iff_true]
    exact (Nat.two_pow_pos i).ne'

/-- A list of length 8 is an explicit eight-element list. -/
theorem exists_eight {α : Type} (l : List α) (h : l.length = 8) :
    ∃ a b c d e f g h', l = [a, b, c, d, e, f, g, h'] := by
  obtain ⟨a, l, rfl⟩ := List.exists_of_length_succ l h
  simp only [List.length_cons, Nat.succ_inj] at h
  obtain ⟨b, l, rfl⟩ := List.exists_of_length_succ l h
  simp only [List.length_cons, Nat.succ_inj] at h
  obtain ⟨c, l, rfl⟩ := List.exists_of_length_succ l h
  simp only [List.length_cons, Nat.succ_inj] at h
  obtain ⟨d, l, rfl⟩ := List.exists_of_length_succ l h
  simp only [List.length_cons, Nat.succ_inj] at h
  obtain ⟨e, l, rfl⟩ := List.exists_of_length_succ l h
  simp only [List.length_cons, Nat.succ_inj] at h
  obtain ⟨f, l, rfl⟩ := List.exists_of_length_succ l h
  simp only [List.length_cons, Nat.succ_inj] at h
  obtain ⟨g, l, rfl⟩ := List.exists_of_length_succ l h
  simp only [List.length_cons, Nat.succ_inj] at h
  obtain ⟨h', l, rfl⟩ := List.exists_of_length_succ l h
  simp only [List.length_cons, Nat.succ_inj] at h
  rw [List.length_eq_zero] at h
  exact ⟨a, b, c, d, e, f, g, h', by rw [h]⟩

/-- C5: for every 16-bit status word, `check_programmer_status` returns
success when bit 0 is set; otherwise bit 4 yields the RAM-CRC-mismatch
failure, else bit 6 the OTP-CRC-mismatch failure, else bit 8 the
configurations-unavailable failure, else the unknown failure — and the
four failure outcomes are pairwise distinct. -/
theorem check_programmer_status_classifies (s : Nat) (_hs : s < 2 ^ 16) :
    (s.testBit 0 = true → checkProgrammerStatus s = .ok ())
    ∧ (s.testBit 0 = false → s.testBit 4 = true →
        checkProgrammerStatus s = .error .crcMismatchRam)
    ∧ (s.testBit 0 = false → s.testBit 4 = false → s.testBit 6 = true →
        checkProgrammerStatus s = .error .crcMismatchOtp)
    ∧ (s.testBit 0 = false → s.testBit 4 = false → s.testBit 6 = false →
        s.testBit 8 = true →
        checkProgrammerStatus s = .error .configurationsUnavailable)
    ∧ (s.testBit 0 = false → s.testBit 4 = false → s.testBit 6 = false →
        s.testBit 8 = false →
        checkProgrammerStatus s = .error (.unknown s))
    ∧ [FlashFailure.crcMismatchRam, .crcMismatchOtp,
       .configurationsUnavailable, .unknown s].Pairwise (· ≠ ·) := by
  have e0 : (s &&& 0b000000001 = 1) ↔ s.testBit 0 = true := by
    rw [Nat.and_one_is_mod]
    cases h : s.testBit 0 <;> rw [Nat.testBit_zero] at h <;> simp_all
  have e4 : (s &&& 0b000010000 ≠ 0) ↔ s.testBit 4 = true := land_two_pow_ne_zero s 4
  have e6 : (s &&& 0b001000000 ≠ 0) ↔ s.testBit 6 = true := land_two_pow_ne_zero s 6
  have e8 : (s &&& 0b100000000 ≠ 0) ↔ s.testBit 8 = true := land_two_pow_ne_zero s 8
  refine ⟨?_, ?_, ?_, ?_, ?_, ?_⟩
  · intro h0
    rw [checkProgrammerStatus, if_pos (e0.mpr h0)]
  · intro h0 h4
    rw [checkProgrammerStatus, if_neg (by rw [e0, h0]; exact Bool.false_ne_true), if_pos (e4.mpr h4)]
  · intro h0 h4 h6
    rw [checkProgrammerStatus, if_neg (by rw [e0, h0]; exact Bool.false_ne_true),
      if_neg (by simp only [e4, h4]; exact Bool.false_ne_true),
      if_pos (e6.mpr h6)]
  · intro h0 h4 h6 h8
    rw [checkProgrammerStatus, if_neg (by rw [e0, h0]; exact Bool.false_ne_true),
      if_neg (by simp only [e4, h4]; exact Bool.false_ne_true),
      if_neg (by simp only [e6, h6]; exact Bool.false_ne_true),
      if_pos (e8.mpr h8)]
  · intro h0 h4 h6 h8
    rw [checkProgrammerStatus, if_neg (by rw [e0, h0]; exact Bool.false_ne_true),
      if_neg (by simp only [e4, h4]; exact Bool.false_ne_true),
      if_neg (by simp only [e6, h6]; exact Bool.false_ne_true),
      if_neg (by simp only [e8, h8]; exact Bool.false_ne_true)]
  · simp

/-- Witness for C5: status word 0x10 (bit 4 set, bit 0 clear) classifies
as the RAM-CRC-mismatch failure. -/
theorem check_programmer_status_classifies_witness :
    checkProgrammerStatus 0x10 = .error .crcMismatchRam :=
  (check_programmer_status_classifies 0x10 (by decide)).2.1 (by decide) (by decide)

/-- C4 counterexample: the bank-status nibble decoder produces `some`
for five, not four, of the sixteen nibble values (0b0000, 0b0001,
0b0010, 0b0100 and 0b1000 are all declared code points). -/
theorem bank_status_five_codes :
    ((List.range 16).countP (fun n => (RendmpBankStatus.fromU8 n).isSome)) = 5
    ∧ ((List.range 16).countP (fun n => (RendmpBankStatus.fromU8 n).isSome)) ≠ 4 := by
  decide

/-- C4 (amended): decoding fails with the short-status error exactly
when the input is not 8 bytes; an 8-byte input yields exactly 16
entries; a nibble decodes to `some` exactly for the five declared 4-bit
codes (0, 1, 2, 4, 8) and to `none` otherwise; and an all-zero 8-byte
block decodes to 16 `BankUnaffected` entries. -/
theorem bank_status_decode_spec :
    (∀ status : List Nat, bankStatus status = .error .shortStatus ↔ status.length ≠ 8)
    ∧ (∀ status : List Nat, status.length = 8 →
        (bankOk? status).map List.length = some 16)
    ∧ (∀ n : Nat, n < 16 →
        ((RendmpBankStatus.fromU8 n).isSome ↔ n = 0 ∨ n = 1 ∨ n = 2 ∨ n = 4 ∨ n = 8))
    ∧ bankStatus (List.replicate 8 0) = .ok (List.replicate 16 (some .BankUnaffected)) := by
  refine ⟨?_, ?_, ?_, ?_⟩
  · intro status
    by_cases h : status.length = 8 <;> simp [bankStatus, h]
  · intro status h8
    obtain ⟨a, b, c, d, e, f, g, h', rfl⟩ := exists_eight status h8
    rfl
  · decide
  · rfl

/-- Witness for C4: an 8-byte block has 16 decoded entries (instance at
the all-zero block), and the reserved nibble 0b0010 is a declared code
point. -/
theorem bank_status_decode_spec_witness :
    (bankOk? (List.replicate 8 0)).map List.length = some 16
    ∧ ((RendmpBankStatus.fromU8 2).isSome ↔ 2 = 0 ∨ 2 = 1 ∨ 2 = 2 ∨ 2 = 4 ∨ 2 = 8) :=
  ⟨bank_status_decode_spec.2.1 (List.replicate 8 0) (by decide),
   bank_status_decode_spec.2.2.1 2 (by decide)⟩

/-- C10: for an 8-byte status block, decoded entry `2k` comes from the
low nibble (bits 0-3) of byte `k` and entry `2k + 1` from the high
nibble (bits 4-7) of byte `k`, for every `k < 8`. -/
theorem bank_status_nibble_order (bytes : List Nat) (h8 : bytes.length = 8)
    (k : Nat) (hk : k < 8) :
    ((bankOk? bytes).getD []).get? (2 * k)
        = some (RendmpBankStatus.fromU8 (bytes.getD k 0 &&& 0b1111))
    ∧ ((bankOk? bytes).getD []).get? (2 * k + 1)
        = some (RendmpBankStatus.fromU8 ((bytes.getD k 0 >>> 4) &&& 0b1111)) := by
  obtain ⟨a, b, c, d, e, f, g, h', rfl⟩ := exists_eight bytes h8
  interval_cases k <;> exact ⟨rfl, rfl⟩

/-- Witness for C10: byte 0 of the block `[0x21, 0, ..., 0]` decodes to
entry 0 `BankWritten` (low nibble 1) and entry 1 `Reserved` (high
nibble 2). -/
theorem bank_status_nibble_order_witness :
    ((bankOk? [0x21, 0, 0, 0, 0, 0, 0, 0]).getD []).get? 0
        = some (some RendmpBankStatus.BankWritten)
    ∧ ((bankOk? [0x21, 0, 0, 0, 0, 0, 0, 0]).getD []).get? 1
        = some (some RendmpBankStatus.Reserved) :=
  bank_status_nibble_order [0x21, 0, 0, 0, 0, 0, 0, 0] rfl 0 (by decide)

/-- C6: for every 8-bit value, `from_id` resolves exactly the ids
enumerated in the two generation tables, fails with the unknown-device
diagnostic for every other value, never reaches the double-match panic,
and no 8-bit value is an id in both generation tables. -/
theorem from_id_resolves_enumerated (i : Nat) (hi : i < 256) :
    ((RendmpDevice.fromId i).isResolved = true ↔ i ∈ enumeratedIds)
    ∧ (RendmpDevice.fromId i = .unknownDevice i ↔ i ∉ enumeratedIds)
    ∧ (RendmpDevice.fromId i).isPanic = false
    ∧ ¬((RendmpGenTwo.fromU8 i).isSome = true
        ∧ (RendmpGenTwoFive.fromU8 i).isSome = true) := by
  revert hi
  revert i
  decide

/-- Witness for C6: id 0x73 (RAA228218) resolves and is enumerated;
id 0x00 does not resolve. -/
theorem from_id_resolves_enumerated_witness :
    ((RendmpDevice.fromId 0x73).isResolved = true ↔ 0x73 ∈ enumeratedIds)
    ∧ (RendmpDevice.fromId 0x00 = .unknownDevice 0x00 ↔ 0x00 ∉ enumeratedIds) :=
  ⟨(from_id_resolves_enumerated 0x73 (by decide)).1,
   (from_id_resolves_enumerated 0x00 (by decide)).2.1⟩

/-- Filtering an interval by an upper bound truncates the interval. -/
theorem range'_filter_lt (n : Nat) : ∀ s m : Nat,
    (List.range' s n).filter (fun i => i < m) = List.range' s (min n (m - s)) := by
  induction n with
  | zero => intro s m; simp
  | succ n ih =>
    intro s m
    rw [List.range'_succ, List.filter_cons]
    by_cases h : s < m
    · rw [if_pos (by simpa using h), ih (s + 1) m]
      have hmin : min (n + 1) (m - s) = min n (m - (s + 1)) + 1 := by omega
      rw [hmin, List.range'_succ]
    · rw [if_neg (by simpa using h), ih (s + 1) m]
      have h1 : min n (m - (s + 1)) = 0 := by omega
      have h2 : min (n + 1) (m - s) = 0 := by omega
      rw [h1, h2]
      rfl

/-- The chunked write loop transmits exactly the indices from `start`
(inclusive) to `max` (exclusive), in order. -/
theorem writeLoop_eq_range' (start max : Nat) :
    writeLoop start max = List.range' start (max - start) := by
  rw [writeLoop]
  by_cases h : max ≤ start + 32
  · simp only [if_pos h, range'_filter_lt]
    congr 1
    omega
  · simp only [if_neg h, range'_filter_lt, writeLoop_eq_range' (start + 32) max]
    have hmin : min 32 (max - start) = 32 := by omega
    rw [hmin]
    have happ := List.range'_append start 32 (max - (start + 32)) 1
    simp only [one_mul] at happ
    rw [happ]
    congr 1
    omega
termination_by max - start
decreasing_by omega

/-- C1: in dry-run mode, for a parsed image with `len ≥ 1` data records,
the write phase transmits exactly the records at indices `1..len-1`
(that is, `len - 2` records), never index 0 and never index
`len - 1`. -/
theorem dryrun_transmits_interior (len : Nat) (h : 1 ≤ len) :
    writeIndices true len = List.range' 1 (len - 2)
    ∧ 0 ∉ writeIndices true len
    ∧ (len - 1) ∉ writeIndices true len := by
  have he : writeIndices true len = List.range' 1 (len - 2) := by
    show writeLoop 1 (len - 1) = _
    rw [writeLoop_eq_range', show len - 1 - 1 = len - 2 by omega]
  refine ⟨he, ?_, ?_⟩ <;> rw [he] <;> intro hmem <;>
    rw [List.mem_range'] at hmem <;> obtain ⟨i, hi, heq⟩ := hmem <;> omega

/-- Witness for C1: with 10 data records, dry-run transmits exactly the
8 records at indices 1 through 8, skipping indices 0 and 9. -/
theorem dryrun_transmits_interior_witness :
    writeIndices true 10 = [1, 2, 3, 4, 5, 6, 7, 8]
    ∧ 0 ∉ writeIndices true 10
    ∧ 9 ∉ writeIndices true 10 :=
  dryrun_transmits_interior 10 (by decide)

/-- C2: CRC preflight gating.  When the device CRC equals the image CRC:
under `--check` the operation stops successfully reporting the match,
with zero writes; without `--check` and without `--force` it aborts
naming the matching CRC and demanding `--force`, with zero writes; with
`--force` (and not `--check`) it proceeds to the write phase.  When the
CRCs differ and `--check` is set, it aborts reporting both CRC values,
with zero writes and without entering the verify phase. -/
theorem crc_preflight_gating (imageCrc deviceCrc : Nat) (check force dryrun : Bool) (len : Nat) :
    (deviceCrc = imageCrc → check = true →
      flashPlan imageCrc deviceCrc check force dryrun len = .stopOkMatch deviceCrc
      ∧ (flashPlan imageCrc deviceCrc check force dryrun len).writesIssued = [])
    ∧ (deviceCrc = imageCrc → check = false → force = false →
      flashPlan imageCrc deviceCrc check force dryrun len = .failMatchNeedForce deviceCrc
      ∧ (flashPlan imageCrc deviceCrc check force dryrun len).writesIssued = [])
    ∧ (deviceCrc = imageCrc → check = false → force = true →
      flashPlan imageCrc deviceCrc check force dryrun len
        = .write (writeIndices dryrun len))
    ∧ (deviceCrc ≠ imageCrc → check = true →
      flashPlan imageCrc deviceCrc check force dryrun len
        = .failCheckMismatch imageCrc deviceCrc
      ∧ (flashPlan imageCrc deviceCrc check force dryrun len).writesIssued = []
      ∧ (flashPlan imageCrc deviceCrc check force dryrun len).entersVerify = false) := by
  refine ⟨?_, ?_, ?_, ?_⟩ <;> intros <;>
    simp_all [flashPlan, FlashPlan.writesIssued, FlashPlan.entersVerify]

/-- Witness for C2: matching CRCs (0x1234) with neither `--check` nor
`--force` abort demanding force, with zero writes issued. -/
theorem crc_preflight_gating_witness :
    flashPlan 0x1234 0x1234 false false false 3 = .failMatchNeedForce 0x1234
    ∧ (flashPlan 0x1234 0x1234 false false false 3).writesIssued = [] :=
  (crc_preflight_gating 0x1234 0x1234 false false false 3).2.1 rfl rfl rfl

/-- One verify iteration whose bank block is clean and whose status
classifies as a failure either returns that failure (past the deadline)
or recurses. -/
theorem verifyLoop_cons_fail (p : VerifyPoll) (rest : List VerifyPoll)
    (hb : banksClean p.banks = true) (e : FlashFailure)
    (hf : checkProgrammerStatus p.status = .error e) :
    verifyLoop (p :: rest)
      = if 2000 < p.elapsedMs then .failed e else verifyLoop rest := by
  rw [verifyLoop, banksClean] at *
  cases hbs : bankStatus p.banks with
  | error e' =>
    cases e'
    rw [hbs] at hb
    simp at hb
  | ok bs =>
    rw [hbs] at hb
    cases hidx : List.findIdx? (fun b => decide (b = none)) bs with
    | some ndx =>
      simp only [hidx] at hb
      exact absurd hb (by simp)
    | none =>
      simp only [hidx, hf]

/-- The verify loop, fed failing polls within the deadline and then a
failing poll past the deadline, surfaces the final poll's classified
failure. -/
theorem verifyLoop_append_fail (polls : List VerifyPoll) (p : VerifyPoll)
    (e : FlashFailure)
    (hall : ∀ q ∈ polls, banksClean q.banks = true
      ∧ statusFailed q.status = true ∧ q.elapsedMs ≤ 2000)
    (hb : banksClean p.banks = true)
    (hf : checkProgrammerStatus p.status = .error e)
    (ht : 2000 < p.elapsedMs) :
    verifyLoop (polls ++ [p]) = .failed e := by
  induction polls with
  | nil =>
    rw [List.nil_append, verifyLoop_cons_fail p [] hb e hf, if_pos ht]
  | cons q rest ih =>
    obtain ⟨hqb, hqf, hqt⟩ := hall q (List.mem_cons_self q rest)
    obtain ⟨e', he'⟩ : ∃ e', checkProgrammerStatus q.status = .error e' := by
      rw [statusFailed] at hqf
      cases hc : checkProgrammerStatus q.status with
      | ok u => rw [hc] at hqf; simp at hqf
      | error e' => exact ⟨e', rfl⟩
    rw [List.cons_append, verifyLoop_cons_fail q (rest ++ [p]) hqb e' he',
      if_neg (by omega)]
    exact ih (fun q' hq' => hall q' (List.mem_cons_of_mem q hq'))

/-- One verify iteration whose bank block is clean and whose status
classifies as success exits the loop successfully at once. -/
theorem verifyLoop_cons_success (p : VerifyPoll) (rest : List VerifyPoll)
    (hb : banksClean p.banks = true)
    (hs : checkProgrammerStatus p.status = .ok ()) :
    verifyLoop (p :: rest) = .success := by
  rw [verifyLoop, banksClean] at *
  cases hbs : bankStatus p.banks with
  | error e' =>
    cases e'
    rw [hbs] at hb
    simp at hb
  | ok bs =>
    rw [hbs] at hb
    cases hidx : List.findIdx? (fun b => decide (b = none)) bs with
    | some ndx =>
      simp only [hidx] at hb
      exact absurd hb (by simp)
    | none =>
      simp only [hidx, hs]

/-- A status word with bit 0 clear and bit 4 set classifies as the
RAM-CRC-mismatch failure. -/
theorem checkProgrammerStatus_bit4 (s : Nat) (h0 : s.testBit 0 = false)
    (h4 : s.testBit 4 = true) :
    checkProgrammerStatus s = .error .crcMismatchRam := by
  have e0 : ¬(s &&& 0b000000001 = 1) := by
    rw [Nat.and_one_is_mod]
    rw [Nat.testBit_zero] at h0
    simp_all
  have e4 : s &&& 0b000010000 ≠ 0 := (land_two_pow_ne_zero s 4).mpr h4
  rw [checkProgrammerStatus, if_neg e0, if_pos e4]

/-- C7: the verify loop exits successfully on the first success
classification; when every poll's bank block is clean, every poll
classifies as a failure, and only the final poll is past the 2-second
deadline, the loop's result is the final poll's classified failure (in
particular, bit 4 set with bit 0 clear on every poll yields the
RAM-CRC-mismatch failure, not a generic timeout — no timeout outcome
exists). -/
theorem verify_surfaces_last_failure :
    (∀ (p : VerifyPoll) (rest : List VerifyPoll),
      banksClean p.banks = true →
      checkProgrammerStatus p.status = .ok () →
      verifyLoop (p :: rest) = .success)
    ∧ (∀ (polls : List VerifyPoll) (p : VerifyPoll) (e : FlashFailure),
      (∀ q ∈ polls, banksClean q.banks = true
        ∧ statusFailed q.status = true ∧ q.elapsedMs ≤ 2000) →
      banksClean p.banks = true →
      checkProgrammerStatus p.status = .error e →
      2000 < p.elapsedMs →
      verifyLoop (polls ++ [p]) = .failed e)
    ∧ (∀ (polls : List VerifyPoll) (p : VerifyPoll),
      (∀ q ∈ polls ++ [p], banksClean q.banks = true
        ∧ q.status.testBit 4 = true ∧ q.status.testBit 0 = false) →
      (∀ q ∈ polls, q.elapsedMs ≤ 2000) →
      2000 < p.elapsedMs →
      verifyLoop (polls ++ [p]) = .failed .crcMismatchRam) := by
  refine ⟨verifyLoop_cons_success, verifyLoop_append_fail, ?_⟩
  intro polls p hall hpre ht
  have hp := hall p (by simp)
  refine verifyLoop_append_fail polls p .crcMismatchRam ?_ hp.1
    (checkProgrammerStatus_bit4 p.status hp.2.2 hp.2.1) ht
  intro q hq
  have h := hall q (List.mem_append_left _ hq)
  refine ⟨h.1, ?_, hpre q hq⟩
  rw [statusFailed, checkProgrammerStatus_bit4 q.status h.2.2 h.2.1]

/-- Witness for C7: one in-deadline poll and one past-deadline poll,
both with status 0x10 (bit 4 set) and clean banks, yield the
RAM-CRC-mismatch failure. -/
theorem verify_surfaces_last_failure_witness :
    verifyLoop [⟨0x10, List.replicate 8 0, 100⟩, ⟨0x10, List.replicate 8 0, 2100⟩]
      = .failed .crcMismatchRam :=
  verify_surfaces_last_failure.2.2 [⟨0x10, List.replicate 8 0, 100⟩]
    ⟨0x10, List.replicate 8 0, 2100⟩ (by decide) (by decide) (by decide)

/-- C9: the parser is not total — a line decoding to exactly two bytes
(kind 0, declared length 0) passes the `vals.len() < 2` check (the
comment above it expects at least kind, length and CRC, i.e. three
values) and then panics indexing `vals[2]`, instead of returning a
diagnostic error. -/
theorem parse_two_byte_line_panics :
    RendmpHex.fromFile testTwoByteLine 0 = .panicked := by
  rfl

/-- C8 counterexample: a successfully parsed image whose CRC data
record's stored payload is 5 bytes, not 4 (the CRC is the record
payload with its first byte skipped). -/
theorem crc_record_payload_five_bytes :
    (imageOf (RendmpHex.fromFile testFile 0x20)).isSome = true
    ∧ (crcRecordOf (RendmpHex.fromFile testFile 0x20)).length = 5
    ∧ (crcRecordOf (RendmpHex.fromFile testFile 0x20)).length ≠ 4 := by
  refine ⟨by rfl, by rfl, ?_⟩
  intro h
  rw [show (crcRecordOf (RendmpHex.fromFile testFile 0x20)).length = 5 from rfl] at h
  exact absurd h (by decide)

/-- A successful `&v[1..]` slice means `v` is its result with one
element in front. -/
theorem sliceFrom1_ok (v t : List Nat) (h : sliceFrom1 v = .ok t) :
    ∃ a, v = a :: t := by
  cases v with
  | nil => exact POut.noConfusion h
  | cons a rest =>
    rw [sliceFrom1] at h
    injection h with h
    exact ⟨a, by rw [h]⟩

/-- A successful run of the parser's tail validates the line count and
extracts the CRC from the record at `crc_line - headers.len() - 2`,
which has a 5-byte stored payload whose last four bytes form the CRC
little-endian. -/
theorem finishParse_ok (hs ds : List (List Nat)) (img : RendmpHex)
    (h : finishParse hs ds = .ok img) :
    img.data = ds
    ∧ hs.length + ds.length = img.device.lines
    ∧ ∃ rec0, ds.get? (crcIndex img.device.crcLine hs.length) = some rec0
      ∧ rec0.length = 5 ∧ img.crc = leWord (rec0.drop 1) := by
  rw [finishParse] at h
  by_cases h2 : hs.length < 2
  · rw [if_pos h2] at h; exact POut.noConfusion h
  rw [if_neg h2] at h
  cases e0 : sliceFrom1 (hs.getD 0 []) with
  | err e => simp only [e0] at h; exact POut.noConfusion h
  | panicked => simp only [e0] at h; exact POut.noConfusion h
  | ok h0tail =>
  simp only [e0] at h
  cases e1 : flipWord h0tail false with
  | err e => simp only [e1] at h; exact POut.noConfusion h
  | panicked => simp only [e1] at h; exact POut.noConfusion h
  | ok icid =>
  simp only [e1] at h
  cases e2 : RendmpDevice.fromId (icid.getD 1 0) with
  | unknownDevice i => simp only [e2] at h; exact POut.noConfusion h
  | panicked d1 d2 => simp only [e2] at h; exact POut.noConfusion h
  | resolved device =>
  simp only [e2] at h
  by_cases e3 : hs.length + ds.length ≠ device.lines
  · rw [if_pos e3] at h; exact POut.noConfusion h
  rw [if_neg e3] at h
  cases e4 : ds.get? (crcIndex device.crcLine hs.length) with
  | none => simp only [e4] at h; exact POut.noConfusion h
  | some rec0 =>
  simp only [e4] at h
  cases e5 : sliceFrom1 rec0 with
  | err e => simp only [e5] at h; exact POut.noConfusion h
  | panicked => simp only [e5] at h; exact POut.noConfusion h
  | ok crc =>
  simp only [e5] at h
  by_cases e6 : crc.length ≠ 4
  · rw [if_pos e6] at h; exact POut.noConfusion h
  rw [if_neg e6] at h
  cases e7 : sliceFrom1 (hs.getD 1 []) with
  | err e => simp only [e7] at h; exact POut.noConfusion h
  | panicked => simp only [e7] at h; exact POut.noConfusion h
  | ok h1tail =>
  simp only [e7] at h
  cases e8 : flipWord h1tail true with
  | err e => simp only [e8] at h; exact POut.noConfusion h
  | panicked => simp only [e8] at h; exact POut.noConfusion h
  | ok icrev =>
  simp only [e8] at h
  injection h with h
  subst h
  obtain ⟨a, ha⟩ := sliceFrom1_ok rec0 crc e5
  rw [not_ne_iff] at e3 e6
  refine ⟨rfl, e3, rec0, e4, ?_, ?_⟩
  · rw [ha, List.length_cons, e6]
  · show leWord crc = leWord (rec0.drop 1)
    rw [ha, List.drop_one, List.tail_cons]

/-- C8 (amended): for every successfully parsed image, the CRC is taken
from the data record at index `crc_line() - headers.len() - 2` (with the
header count recovered from the validated total line count); that
record's stored payload is exactly 5 bytes — one leading byte followed
by the 4 CRC bytes — and the image CRC equals those last 4 bytes
interpreted little-endian. -/
theorem crc_extraction (lines : List (List Char)) (address : Nat) (img : RendmpHex)
    (h : RendmpHex.fromFile lines address = .ok img) :
    (img.device.crcLine - (img.device.lines - img.data.length) - 2 < img.data.length)
    ∧ (crcRecordOf (.ok img)).length = 5
    ∧ img.crc = leWord ((crcRecordOf (.ok img)).drop 1) := by
  rw [RendmpHex.fromFile] at h
  cases hp : procLines address lines 0 ⟨[], []⟩ with
  | err e => simp only [hp] at h; exact POut.noConfusion h
  | panicked => simp only [hp] at h; exact POut.noConfusion h
  | ok st =>
  simp only [hp] at h
  obtain ⟨hdata, hlines, rec0, hget, hlen5, hcrc⟩ := finishParse_ok st.headers st.data img h
  obtain ⟨hbound, -⟩ := List.get?_eq_some.mp hget
  have hdl : img.device.lines ≤ 648 := by
    cases img.device <;> simp [RendmpDevice.lines]
  have hcl : img.device.crcLine ≤ 600 := by
    cases img.device <;> simp [RendmpDevice.crcLine]
  have hnowrap : crcIndex img.device.crcLine st.headers.length
      = img.device.crcLine - st.headers.length - 2 := by
    rw [crcIndex] at hbound ⊢
    omega
  have hh : img.device.lines - img.data.length = st.headers.length := by
    rw [hdata]
    omega
  have hidx : img.device.crcLine - (img.device.lines - img.data.length) - 2
      = crcIndex img.device.crcLine st.headers.length := by
    rw [hh, hnowrap]
  have hrec : crcRecordOf (.ok img) = rec0 := by
    rw [crcRecordOf, hidx, List.getD_eq_getElem?_getD, ← List.get?_eq_getElem?,
      hdata, hget, Option.getD_some]
  refine ⟨?_, by rw [hrec]; exact hlen5, by rw [hrec]; exact hcrc⟩
  rw [hidx, hdata]
  exact hbound

/-- Witness for C8: the 582-line test file parses to `testImage`, whose
CRC record (5 bytes) sits at the documented index and yields CRC
0x12345678. -/
theorem crc_extraction_witness :
    (testImage.device.crcLine - (testImage.device.lines - testImage.data.length) - 2
      < testImage.data.length)
    ∧ (crcRecordOf (.ok testImage)).length = 5
    ∧ testImage.crc = leWord ((crcRecordOf (.ok testImage)).drop 1) :=
  crc_extraction testFile 0x20 testImage (by rfl)

/-- A line that hex-decodes to a nonempty value list is neither blank
nor a comment line. -/
theorem decode_ok_line_shape (l : Nat) (line : List Char) (v : List Nat)
    (hv : v ≠ []) (hdec : decodePairs l line 0 = .ok v) :
    ¬(line = [] ∨ line.head? = some '#') := by
  rintro (rfl | hh)
  · rw [decodePairs] at hdec
    injection hdec with hdec
    exact hv hdec.symm
  · cases line with
    | nil => simp at hh
    | cons c t =>
      rw [List.head?_cons, Option.some_inj] at hh
      subst hh
      cases t with
      | nil =>
        rw [decodePairs] at hdec
        exact POut.noConfusion hdec
      | cons c2 r =>
        have hpv : pairVal '#' c2 = none := by
          rw [pairVal, if_neg (by decide)]
          cases h2 : hexDigit c2 <;> rfl
        rw [decodePairs] at hdec
        simp only [hpv] at hdec
        exact POut.noConfusion hdec

/-- A line whose decoded values include a mismatched third byte is never
accepted by the per-line processor, whatever the state. -/
theorem procLine_mismatch_not_ok (a l : Nat) (line : List Char)
    (vals : List Nat) (hdec : decodePairs l line 0 = .ok vals)
    (hlen3 : 3 ≤ vals.length) (hmm : vals.getD 2 0 >>> 1 ≠ a)
    (st st' : ParseSt) : procLine a l line st ≠ .ok st' := by
  intro hcontra
  rw [procLine, if_neg (decode_ok_line_shape l line vals (by
    intro hnil; rw [hnil] at hlen3; simp at hlen3) hdec)] at hcontra
  simp only [hdec] at hcontra
  cases vals with
  | nil => simp at hlen3
  | cons v0 vs =>
  cases vs with
  | nil => simp at hlen3
  | cons v1 vs' =>
  cases vs' with
  | nil => simp at hlen3
  | cons v2 tl =>
  rw [if_neg (by simp)] at hcontra
  cases hk : RendmpHexRecordKind.fromU8 v0 with
  | none =>
    simp only [hk] at hcontra
    exact POut.noConfusion hcontra
  | some kind =>
    simp only [hk] at hcontra
    by_cases hl : v1 ≠ (v0 :: v1 :: v2 :: tl).length - 2
    · rw [if_pos hl] at hcontra
      exact POut.noConfusion hcontra
    · rw [if_neg hl] at hcontra
      rw [if_pos (show v2 >>> 1 ≠ a from hmm)] at hcontra
      exact POut.noConfusion hcontra

/-- When the line fold accepts a whole block, every line of the block
was individually accepted (from some intermediate state). -/
theorem procLines_ok_all (a : Nat) : ∀ (ls : List (List Char)) (n : Nat)
    (st st'' : ParseSt), procLines a ls n st = .ok st'' →
    ∀ (j : Nat) (line : List Char), ls.get? j = some line →
    ∃ st0 st1, procLine a (n + j + 1) line st0 = .ok st1 := by
  intro ls
  induction ls with
  | nil =>
    intro n st st'' _ j line hj
    simp at hj
  | cons hd tl ih =>
    intro n st st'' h j line hj
    rw [procLines] at h
    cases ep : procLine a (n + 1) hd st with
    | err e => rw [ep] at h; exact POut.noConfusion h
    | panicked => rw [ep] at h; exact POut.noConfusion h
    | ok st' =>
      rw [ep] at h
      cases j with
      | zero =>
        rw [List.get?_cons_zero, Option.some_inj] at hj
        subst hj
        exact ⟨st, st', ep⟩
      | succ j =>
        rw [List.get?_cons_succ] at hj
        obtain ⟨st0, st1, hw⟩ := ih (n + 1) st' st'' h j line hj
        refine ⟨st0, st1, ?_⟩
        rw [show n + (j + 1) + 1 = n + 1 + j + 1 from by omega]
        exact hw

/-- Feeding the line fold a block of accepted lines followed by a line
rejected with error `E` yields error `E`. -/
theorem procLines_append_err (a : Nat) (E : ParseErr) :
    ∀ (pre : List (List Char)) (n : Nat) (st : ParseSt) (line : List Char)
      (rest : List (List Char)),
    (∀ (j : Nat) (l' : List Char) (st0 : ParseSt), pre.get? j = some l' →
      ∃ st', procLine a (n + j + 1) l' st0 = .ok st') →
    (∀ st0 : ParseSt, procLine a (n + pre.length + 1) line st0 = .err E) →
    procLines a (pre ++ line :: rest) n st = .err E := by
  intro pre
  induction pre with
  | nil =>
    intro n st line rest _ hline
    have h := hline st
    simp only [List.length_nil, Nat.add_zero] at h
    rw [List.nil_append, procLines, h]
  | cons hd tl ih =>
    intro n st line rest hclean hline
    obtain ⟨st', hok⟩ := hclean 0 hd st (by rw [List.get?_cons_zero])
    rw [List.cons_append, procLines, hok]
    refine ih (n + 1) st' line rest ?_ ?_
    · intro j l' st0 hj
      rw [show n + 1 + j + 1 = n + (j + 1) + 1 from by omega]
      exact hclean (j + 1) l' st0 (by rw [List.get?_cons_succ]; exact hj)
    · intro st0
      rw [show n + 1 + tl.length + 1 = n + (hd :: tl).length + 1 from by
        rw [List.length_cons]; omega]
      exact hline st0

/-- A well-formed record line (valid kind, correct declared length)
whose address byte mismatches is rejected with the address-mismatch
diagnostic naming both addresses, whatever the state. -/
theorem procLine_addr_mismatch (a l : Nat) (line : List Char)
    (v0 v1 v2 : Nat) (tl : List Nat)
    (hdec : decodePairs l line 0 = .ok (v0 :: v1 :: v2 :: tl))
    (hkind : (RendmpHexRecordKind.fromU8 v0).isSome = true)
    (hlen : v1 = tl.length + 1) (hmm : v2 >>> 1 ≠ a) (st : ParseSt) :
    procLine a l line st = .err (.addrMismatch (v2 >>> 1) a) := by
  rw [procLine, if_neg (decode_ok_line_shape l line _ (by simp) hdec)]
  simp only [hdec]
  rw [if_neg (by simp)]
  cases hk : RendmpHexRecordKind.fromU8 v0 with
  | none => rw [hk] at hkind; exact absurd hkind (by simp)
  | some kind =>
    simp only [hk]
    rw [if_neg (by simp [hlen])]
    rw [if_pos hmm]

/-- C3 counterexample: a file whose second line is a well-formed record
with a mismatched address byte (0x40 >> 1 = 0x20 ≠ 0), but whose first
line is not hexadecimal; parsing fails with the bad-hex diagnostic for
line 1, not with a diagnostic naming both addresses. -/
theorem addr_mismatch_diagnostic_preempted :
    decodePairs 2 ("00024000".toList) 0 = .ok [0, 2, 0x40, 0]
    ∧ (3 ≤ ([0, 2, 0x40, 0] : List Nat).length)
    ∧ ([0, 2, 0x40, 0] : List Nat).getD 2 0 >>> 1 ≠ 0
    ∧ RendmpHex.fromFile testBadThenMismatch 0 = .err (.badHex 1 1)
    ∧ RendmpHex.fromFile testBadThenMismatch 0 ≠ .err (.addrMismatch 0x20 0) := by
  refine ⟨by rfl, by decide, by decide, by rfl, ?_⟩
  intro h
  rw [show RendmpHex.fromFile testBadThenMismatch 0 = .err (.badHex 1 1) from rfl] at h
  exact absurd h (by decide)

/-- C3 (amended): a file containing any non-blank, non-comment line
whose third decoded byte, right-shifted by one, differs from the target
address never parses to an image; and when every earlier line is
accepted by the per-line processor and the offending line itself has a
valid record kind and correct declared length, the parse fails with
exactly the address-mismatch diagnostic naming both addresses,
regardless of where in the file that record occurs. -/
theorem addr_mismatch_rejected :
    (∀ (address : Nat) (lines : List (List Char)) (n : Nat) (line : List Char)
        (vals : List Nat),
      lines.get? n = some line →
      decodePairs (n + 1) line 0 = .ok vals →
      3 ≤ vals.length →
      vals.getD 2 0 >>> 1 ≠ address →
      ∀ img, RendmpHex.fromFile lines address ≠ .ok img)
    ∧ (∀ (address : Nat) (pre : List (List Char)) (line : List Char)
        (rest : List (List Char)) (v0 v1 v2 : Nat) (tl : List Nat),
      (∀ (j : Nat) (l' : List Char) (st : ParseSt), pre.get? j = some l' →
        ∃ st', procLine address (j + 1) l' st = .ok st') →
      decodePairs (pre.length + 1) line 0 = .ok (v0 :: v1 :: v2 :: tl) →
      (RendmpHexRecordKind.fromU8 v0).isSome = true →
      v1 = tl.length + 1 →
      v2 >>> 1 ≠ address →
      RendmpHex.fromFile (pre ++ line :: rest) address
        = .err (.addrMismatch (v2 >>> 1) address)) := by
  constructor
  · intro a lines n line vals hget hdec hlen3 hmm img hok
    rw [RendmpHex.fromFile] at hok
    cases hp : procLines a lines 0 ⟨[], []⟩ with
    | err e => rw [hp] at hok; exact POut.noConfusion hok
    | panicked => rw [hp] at hok; exact POut.noConfusion hok
    | ok st =>
      obtain ⟨st0, st1, hw⟩ := procLines_ok_all a lines 0 ⟨[], []⟩ st hp n line hget
      rw [Nat.zero_add] at hw
      exact procLine_mismatch_not_ok a (n + 1) line vals hdec hlen3 hmm st0 st1 hw
  · intro a pre line rest v0 v1 v2 tl hclean hdec hkind hlen hmm
    have herr : procLines a (pre ++ line :: rest) 0 ⟨[], []⟩
        = .err (.addrMismatch (v2 >>> 1) a) := by
      refine procLines_append_err a _ pre 0 ⟨[], []⟩ line rest ?_ ?_
      · intro j l' st0 hj
        rw [Nat.zero_add]
        exact hclean j l' st0 hj
      · intro st0
        rw [Nat.zero_add]
        exact procLine_addr_mismatch a (pre.length + 1) line v0 v1 v2 tl
          hdec hkind hlen hmm st0
    rw [RendmpHex.fromFile, herr]

/-- Witness for C3: a file whose first line is a matching record for
address 1 and whose second line carries address byte 0x40 fails with the
address-mismatch diagnostic naming 0x20 and 1. -/
theorem addr_mismatch_rejected_witness :
    RendmpHex.fromFile ["00020200".toList, "00024000".toList] 1
      = .err (.addrMismatch 0x20 1) :=
  addr_mismatch_rejected.2 1 ["00020200".toList] ("00024000".toList) [] 0 2 0x40 [0]
    (by
      intro j l' st hj
      match j with
      | 0 =>
        rw [List.get?_cons_zero, Option.some_inj] at hj
        subst hj
        exact ⟨{ st with data := st.data ++ [[]] }, rfl⟩
      | j + 1 => simp at hj)
    rfl rfl rfl (by decide)
